import Mathlib

/-!
Verification of the `flexi_auth` authorization backend
(`flexi_auth/backends.py`, class `ParamRoleBackend`).

The backend exposes a single decision method,
`has_perm(user_obj, perm, obj)`:

* if `obj` is `None` it returns `False`;
* if `user_obj.is_superuser` it returns `True`;
* if `user_obj.is_anonymous()` or not `user_obj.is_active` it returns
  `False`;
* otherwise it computes
  `perm_check = getattr(obj.model_or_instance, 'can_' + perm.lower())`
  (which raises `AttributeError` when no such attribute exists) and
  returns `perm_check(user_obj, obj.context)`.

The capability checks themselves (`can_<perm>` methods of the resource
models) live outside this repository: every model class registers its
own checks, and the backend only looks them up by name and invokes
them.  We therefore embed the attribute-lookup surface as an explicit
environment `Getattr`: a function from the target object (a model
class or a model instance, the tagged union `ModelOrInstance`) and an
attribute name to an optional capability check.  A check receives the
principal and the target's context and either returns a boolean or
raises; `has_perm` itself can also raise `AttributeError` out of the
lookup, so the embedding of `has_perm` returns `Except PyExc Bool`.
-/

deriving instance DecidableEq for Except

namespace FlexiAuth

/-- The acting identity, as read by the backend: the three flags
`is_superuser`, `is_anonymous` (negation of authenticated) and
`is_active`, plus an `id` used by context-dependent checks. -/
structure Principal where
  is_superuser : Bool
  is_anonymous : Bool
  is_active : Bool
  id : Nat
deriving DecidableEq, Repr

/-- The spec-side `isAuthenticated` flag: the negation of the
code-side `is_anonymous()`. -/
def Principal.isAuthenticated (u : Principal) : Bool :=
  !u.is_anonymous

/-- The value of `obj.model_or_instance`: either a model class
(table-level target) or a model instance (row-level target),
identified abstractly. -/
inductive ModelOrInstance where
  | modelClass (kindId : Nat)
  | modelInstance (kindId : Nat) (instId : Nat)
deriving DecidableEq, Repr

/-- The `obj` argument of `has_perm` when present: it carries
`model_or_instance` and `context`.  The context type is abstract. -/
structure Target (Ctx : Type) where
  model_or_instance : ModelOrInstance
  context : Ctx

/-- Exceptions that can escape a permission check: the
`AttributeError` raised by `getattr` when the named capability check
does not exist (the spec's `CapabilityNotImplemented`), or an
exception raised from inside a capability check's own body. -/
inductive PyExc where
  | attributeError (name : String)
  | checkException
deriving DecidableEq, Repr

/-- A capability check `can_<perm>`: a function of the principal and
the context that returns a boolean or raises. -/
abbrev CapCheck (Ctx : Type) := Principal → Ctx → Except PyExc Bool

/-- The attribute-lookup surface of the external resource kinds:
what `getattr(model_or_instance, name)` finds, if anything.  The
checks are owned by the model classes, outside this repository, so
they are a parameter of the embedding. -/
abbrev Getattr (Ctx : Type) := ModelOrInstance → String → Option (CapCheck Ctx)

/-- Python's `str.lower()` on the permission codename: lower-case
every character (character-wise, as `String.toLower` does; defined
over the character list so it reduces definitionally). -/
def lower (s : String) : String :=
  ⟨s.data.map Char.toLower⟩

/-- The attribute name derived from a permission codename:
`'can_' + perm.lower()`. -/
def capCheckName (perm : String) : String :=
  "can_" ++ lower perm

/-- The last two lines of `has_perm` (the spec's Capability
Resolver): look up `can_<perm.lower()>` on `obj.model_or_instance`
(raising `AttributeError` if absent, as `getattr` without a default
does) and invoke it with `(user_obj, obj.context)`. -/
def Resolve {Ctx : Type} (g : Getattr Ctx) (user_obj : Principal)
    (t : Target Ctx) (perm : String) : Except PyExc Bool :=
  match g t.model_or_instance (capCheckName perm) with
  | none => .error (.attributeError (capCheckName perm))
  | some perm_check => perm_check user_obj t.context

/-- `ParamRoleBackend.has_perm(user_obj, perm, obj)`:
`obj is None` → `False`; `user_obj.is_superuser` → `True`;
`user_obj.is_anonymous() or not user_obj.is_active` → `False`;
otherwise the verdict of the located `can_<perm>` check invoked with
`(user_obj, obj.context)`. -/
def has_perm {Ctx : Type} (g : Getattr Ctx) (user_obj : Principal)
    (perm : String) (obj : Option (Target Ctx)) : Except PyExc Bool :=
  match obj with
  | none => .ok false
  | some t =>
    if user_obj.is_superuser then .ok true
    else if user_obj.is_anonymous || !user_obj.is_active then .ok false
    else Resolve g user_obj t perm

/-- The Policy Gate as the specification document words it
(its §4.1 step order, written independently of the code):
1. target absent → `false`;
2. privileged → `true`;
3. unauthenticated, or authenticated and not active → `false`;
4. otherwise the verdict of the capability check named
   `"can_" ++ lower-cased permission name`, invoked with
   `(principal, target.context)`; a missing check is the
   `CapabilityNotImplemented` failure. -/
def Evaluate_spec {Ctx : Type} (g : Getattr Ctx) (principal : Principal)
    (permissionName : String) (target : Option (Target Ctx)) :
    Except PyExc Bool :=
  match target with
  | none => .ok false
  | some t =>
    if principal.is_superuser then .ok true
    else if (!principal.isAuthenticated) ||
        (principal.isAuthenticated && !principal.is_active) then .ok false
    else
      match g t.model_or_instance ("can_" ++ lower permissionName) with
      | none => .error (.attributeError ("can_" ++ lower permissionName))
      | some check => check principal t.context

/-- A sequence of independent `has_perm` calls against the same check
environment: the verdict list, one per call. -/
def evaluateSequence {Ctx : Type} (g : Getattr Ctx)
    (calls : List (Principal × String × Option (Target Ctx))) :
    List (Except PyExc Bool) :=
  calls.map (fun c => has_perm g c.1 c.2.1 c.2.2)

end FlexiAuth

namespace FlexiAuth

/-- C1: `has_perm` agrees everywhere with the first-match case
analysis the spec describes: absent target → `false`; privileged →
`true`; unauthenticated or inactive → `false`; otherwise the verdict
of the capability check located for the (target, permission name)
pair, invoked with `(principal, target.context)`. -/
theorem has_perm_first_match {Ctx : Type} (g : Getattr Ctx)
    (u : Principal) (perm : String) (obj : Option (Target Ctx)) :
    has_perm g u perm obj = Evaluate_spec g u perm obj := by
  cases obj with
  | none => rfl
  | some t =>
    rcases u with ⟨s, a, act, i⟩
    cases s <;> cases a <;> cases act <;> rfl

/-- C2: a privileged principal (`is_superuser = true`) is granted
every permission on every present target, in every check environment
— including one where no capability check exists at all. -/
theorem superuser_always_granted {Ctx : Type} (g : Getattr Ctx)
    (u : Principal) (h : u.is_superuser = true) (perm : String)
    (t : Target Ctx) : has_perm g u perm (some t) = .ok true := by
  simp [has_perm, h]

/-- Witness for C2: an anonymous, inactive superuser, an environment
with no checks, and an arbitrary permission still yield `true`. -/
theorem superuser_always_granted_witness :
    has_perm ((fun _ _ => none) : Getattr Unit) ⟨true, true, false, 0⟩
      "archive" (some ⟨ModelOrInstance.modelClass 0, ()⟩) = .ok true :=
  superuser_always_granted (fun _ _ => none) ⟨true, true, false, 0⟩ rfl
    "archive" ⟨ModelOrInstance.modelClass 0, ()⟩

/-- C3 counterexample: the claim says every unauthenticated principal
is denied, but a principal that is simultaneously a superuser and
anonymous is granted: the superuser branch is checked first. -/
theorem unauthenticated_denied_counterexample :
    has_perm ((fun _ _ => none) : Getattr Unit) ⟨true, true, true, 0⟩
      "view" (some ⟨ModelOrInstance.modelClass 0, ()⟩) ≠ .ok false := by
  decide

/-- C3 (amended): every *non-privileged* principal that is
unauthenticated, or authenticated but not active, is denied on every
target and permission. -/
theorem non_privileged_unauth_or_inactive_denied {Ctx : Type}
    (g : Getattr Ctx) (u : Principal) (hs : u.is_superuser = false)
    (h : u.isAuthenticated = false ∨
      (u.isAuthenticated = true ∧ u.is_active = false))
    (perm : String) (t : Target Ctx) :
    has_perm g u perm (some t) = .ok false := by
  rcases u with ⟨s, a, act, i⟩
  subst hs
  simp only [Principal.isAuthenticated] at h
  rcases h with h | ⟨h1, h2⟩
  · cases a with
    | false => simp at h
    | true => rfl
  · cases a with
    | false =>
      subst h2
      rfl
    | true => simp at h1

/-- Witness for C3 (amended): a non-privileged anonymous principal is
denied even when a check granting everything exists. -/
theorem non_privileged_unauth_or_inactive_denied_witness :
    has_perm ((fun _ _ => some (fun _ _ => .ok true)) : Getattr Unit)
      ⟨false, true, true, 0⟩ "view"
      (some ⟨ModelOrInstance.modelClass 0, ()⟩) = .ok false :=
  non_privileged_unauth_or_inactive_denied
    (fun _ _ => some (fun _ _ => .ok true)) ⟨false, true, true, 0⟩ rfl
    (Or.inl rfl) "view" ⟨ModelOrInstance.modelClass 0, ()⟩

/-- C4: when the target's resource kind defines no check named
`can_<perm.lower()>` at the scope the target selects, `Resolve`
raises `AttributeError` (the `CapabilityNotImplemented` failure), and
so does `has_perm` for a non-privileged, authenticated, active
principal — neither returns a boolean verdict. -/
theorem missing_check_raises {Ctx : Type} (g : Getattr Ctx)
    (u : Principal) (t : Target Ctx) (perm : String)
    (hmiss : g t.model_or_instance (capCheckName perm) = none)
    (hs : u.is_superuser = false) (ha : u.is_anonymous = false)
    (hact : u.is_active = true) :
    Resolve g u t perm = .error (.attributeError (capCheckName perm)) ∧
    has_perm g u perm (some t) =
      .error (.attributeError (capCheckName perm)) := by
  have hr : Resolve g u t perm =
      .error (.attributeError (capCheckName perm)) := by
    simp [Resolve, hmiss]
  exact ⟨hr, by simp [has_perm, hs, ha, hact, hr]⟩

/-- Witness for C4: an environment with no `can_archive` check makes
both `Resolve` and `has_perm` fail with the `AttributeError` carrying
`"can_archive"`. -/
theorem missing_check_raises_witness :
    Resolve ((fun _ _ => none) : Getattr Unit) ⟨false, false, true, 0⟩
        ⟨ModelOrInstance.modelInstance 0 1, ()⟩ "archive" =
      .error (.attributeError "can_archive") ∧
    has_perm ((fun _ _ => none) : Getattr Unit) ⟨false, false, true, 0⟩
        "archive" (some ⟨ModelOrInstance.modelInstance 0 1, ()⟩) =
      .error (.attributeError "can_archive") :=
  missing_check_raises (fun _ _ => none) ⟨false, false, true, 0⟩
    ⟨ModelOrInstance.modelInstance 0 1, ()⟩ "archive" rfl rfl rfl rfl

/-- C5: the resolver is case-insensitive in the permission name: two
permission strings with equal lower-casings derive the same check
identifier — `"can_"` concatenated with the lower-cased name — hence
select the identical check and yield the same verdict everywhere. -/
theorem resolve_case_insensitive {Ctx : Type} (p1 p2 : String)
    (h : lower p1 = lower p2) (g : Getattr Ctx) (u : Principal)
    (t : Target Ctx) :
    capCheckName p1 = "can_" ++ lower p1 ∧
    capCheckName p1 = capCheckName p2 ∧
    Resolve g u t p1 = Resolve g u t p2 := by
  refine ⟨rfl, ?_, ?_⟩
  · simp [capCheckName, h]
  · simp [Resolve, capCheckName, h]

/-- Witness for C5: `"View"` and `"VIEW"` derive the identifier
`"can_view"` and resolve identically against a concrete target. -/
theorem resolve_case_insensitive_witness :
    capCheckName "View" = "can_" ++ lower "View" ∧
    capCheckName "View" = capCheckName "VIEW" ∧
    Resolve ((fun _ _ => some (fun _ _ => .ok true)) : Getattr Unit)
        ⟨false, false, true, 0⟩ ⟨ModelOrInstance.modelClass 0, ()⟩
        "View" =
      Resolve ((fun _ _ => some (fun _ _ => .ok true)) : Getattr Unit)
        ⟨false, false, true, 0⟩ ⟨ModelOrInstance.modelClass 0, ()⟩
        "VIEW" :=
  resolve_case_insensitive "View" "VIEW" (by decide)
    (fun _ _ => some (fun _ _ => .ok true)) ⟨false, false, true, 0⟩
    ⟨ModelOrInstance.modelClass 0, ()⟩

/-- C6: for a non-privileged, authenticated, active principal and a
present target whose lookup finds the check, `has_perm` returns
exactly the check's result on `(principal, target.context)`, with no
further interpretation. -/
theorem active_user_gets_check_verdict {Ctx : Type} (g : Getattr Ctx)
    (u : Principal) (perm : String) (t : Target Ctx) (c : CapCheck Ctx)
    (hs : u.is_superuser = false) (ha : u.is_anonymous = false)
    (hact : u.is_active = true)
    (hfound : g t.model_or_instance (capCheckName perm) = some c) :
    has_perm g u perm (some t) = c u t.context := by
  simp [has_perm, Resolve, hs, ha, hact, hfound]

/-- Witness for C6, the end-to-end owner scenario: a `can_edit` check
that grants iff `context["owner"]` equals the principal's id yields
`true` for the owner (id 7, owner key 7) and `false` otherwise
(owner key 8). -/
theorem active_user_gets_check_verdict_witness :
    has_perm ((fun _ _ => some (fun p ctx =>
          .ok (decide (ctx.lookup "owner" = some p.id)))) :
        Getattr (List (String × Nat)))
        ⟨false, false, true, 7⟩ "edit"
        (some ⟨ModelOrInstance.modelInstance 0 3, [("owner", 7)]⟩) =
      .ok true ∧
    has_perm ((fun _ _ => some (fun p ctx =>
          .ok (decide (ctx.lookup "owner" = some p.id)))) :
        Getattr (List (String × Nat)))
        ⟨false, false, true, 7⟩ "edit"
        (some ⟨ModelOrInstance.modelInstance 0 3, [("owner", 8)]⟩) =
      .ok false := by
  constructor
  · exact (active_user_gets_check_verdict _ ⟨false, false, true, 7⟩
      "edit" ⟨ModelOrInstance.modelInstance 0 3, [("owner", 7)]⟩
      (fun p ctx => .ok (decide (ctx.lookup "owner" = some p.id)))
      rfl rfl rfl rfl).trans (by decide)
  · exact (active_user_gets_check_verdict _ ⟨false, false, true, 7⟩
      "edit" ⟨ModelOrInstance.modelInstance 0 3, [("owner", 8)]⟩
      (fun p ctx => .ok (decide (ctx.lookup "owner" = some p.id)))
      rfl rfl rfl rfl).trans (by decide)

/-- C7: a request with no target is denied for every principal and
permission in every environment — in particular in one whose every
check raises when invoked, showing no check is ever consulted. -/
theorem no_target_denied {Ctx : Type} (g : Getattr Ctx)
    (u : Principal) (perm : String) :
    has_perm g u perm none = .ok false :=
  rfl

/-- C8: lookup is keyed by the full target variant: if the
environment carries a class-scoped check for the kind and an
instance-scoped check bound to a specific instance under the same
name, `Resolve` invokes the class-scoped one for the class target and
the instance-scoped one for the instance target, so the two verdicts
are independently determined by the variant. -/
theorem class_instance_scoping {Ctx : Type} (g : Getattr Ctx)
    (k i : Nat) (perm : String) (fc fi : CapCheck Ctx) (u : Principal)
    (ctxC ctxI : Ctx)
    (hc : g (ModelOrInstance.modelClass k) (capCheckName perm) = some fc)
    (hi : g (ModelOrInstance.modelInstance k i) (capCheckName perm) =
      some fi) :
    Resolve g u ⟨ModelOrInstance.modelClass k, ctxC⟩ perm = fc u ctxC ∧
    Resolve g u ⟨ModelOrInstance.modelInstance k i, ctxI⟩ perm =
      fi u ctxI := by
  constructor
  · simp [Resolve, hc]
  · simp [Resolve, hi]

/-- Witness for C8: a kind whose class-scoped `can_create` denies and
whose instance-scoped `can_create` grants produces different verdicts
for the class target and the instance target of the same kind. -/
theorem class_instance_scoping_witness :
    Resolve ((fun m _ => match m with
          | ModelOrInstance.modelClass _ => some (fun _ _ => .ok false)
          | ModelOrInstance.modelInstance _ _ =>
            some (fun _ _ => .ok true)) : Getattr Unit)
        ⟨false, false, true, 0⟩ ⟨ModelOrInstance.modelClass 1, ()⟩
        "create" = .ok false ∧
    Resolve ((fun m _ => match m with
          | ModelOrInstance.modelClass _ => some (fun _ _ => .ok false)
          | ModelOrInstance.modelInstance _ _ =>
            some (fun _ _ => .ok true)) : Getattr Unit)
        ⟨false, false, true, 0⟩ ⟨ModelOrInstance.modelInstance 1 5, ()⟩
        "create" = .ok true :=
  class_instance_scoping
    (fun m _ => match m with
      | ModelOrInstance.modelClass _ => some (fun _ _ => .ok false)
      | ModelOrInstance.modelInstance _ _ => some (fun _ _ => .ok true))
    1 5 "create" (fun _ _ => .ok false) (fun _ _ => .ok true)
    ⟨false, false, true, 0⟩ () () rfl rfl

/-- C9: the privileged bypass outranks the unauthenticated/inactive
denial: with a present target, a superuser that is also anonymous or
inactive is still granted. -/
theorem superuser_outranks_denial {Ctx : Type} (g : Getattr Ctx)
    (u : Principal) (hs : u.is_superuser = true)
    (h : u.isAuthenticated = false ∨ u.is_active = false)
    (perm : String) (t : Target Ctx) :
    has_perm g u perm (some t) = .ok true := by
  simp [has_perm, hs]

/-- Witness for C9: an anonymous, inactive superuser is granted. -/
theorem superuser_outranks_denial_witness :
    has_perm ((fun _ _ => none) : Getattr Unit) ⟨true, true, false, 0⟩
      "delete" (some ⟨ModelOrInstance.modelInstance 2 9, ()⟩) =
      .ok true :=
  superuser_outranks_denial (fun _ _ => none) ⟨true, true, false, 0⟩ rfl
    (Or.inl rfl) "delete" ⟨ModelOrInstance.modelInstance 2 9, ()⟩

/-- C10: `has_perm` is deterministic and stateless across calls: in
any sequence of evaluations against the same check environment, the
verdict at each position is a function of that call's own arguments
alone, unaffected by the calls made before or after it. -/
theorem evaluate_stateless {Ctx : Type} (g : Getattr Ctx)
    (pre post : List (Principal × String × Option (Target Ctx)))
    (u : Principal) (perm : String) (obj : Option (Target Ctx)) :
    (evaluateSequence g (pre ++ (u, perm, obj) :: post)).get?
        pre.length =
      some (has_perm g u perm obj) := by
  induction pre with
  | nil => rfl
  | cons hd tl ih =>
    simpa [evaluateSequence] using ih

end FlexiAuth
